import Mathlib

/- Shallow embedding of the Mini-Compiler front end (src/app.py):
   lexical analysis (tokenize), line-oriented syntax analysis
   (syntax_analysis), semantic analysis (semantic_analysis) and the
   recursive-descent parse-tree builder (build_parse_tree).
   Python strings are modelled as `List Char`/`String`; a Python
   exception (IndexError from an out-of-range list access) is modelled
   as `none` / an explicit error constructor. -/

namespace MiniCompiler

/-- Character class of the regex `\d`. -/
def isDigitC (c : Char) : Bool := '0' ≤ c && c ≤ '9'

/-- Character class of `[a-zA-Z]`. -/
def isAlphaC (c : Char) : Bool := ('a' ≤ c && c ≤ 'z') || ('A' ≤ c && c ≤ 'Z')

/-- First character of the identifier pattern `[a-zA-Z_][a-zA-Z0-9_]*`. -/
def isIdStart (c : Char) : Bool := isAlphaC c || c = '_'

/-- Continuation character of the identifier pattern. -/
def isIdCont (c : Char) : Bool := isAlphaC c || isDigitC c || c = '_'

/-- Character class of the operator rule `[+\-*/=]`. -/
def isOpC (c : Char) : Bool := c = '+' || c = '-' || c = '*' || c = '/' || c = '='

/-- Python whitespace, as removed by `str.strip()` and split on by
`str.split()` with no argument. -/
def isPyWs (c : Char) : Bool :=
  c = ' ' || c = '\t' || c = '\n' || c = '\r' || c = '\x0b' || c = '\x0c'

/-- Python `str.strip()`: drop leading and trailing whitespace. -/
def pyStrip (l : List Char) : List Char :=
  ((l.dropWhile isPyWs).reverse.dropWhile isPyWs).reverse

/-- Python `s.split("\n")`: the empty string yields one empty piece,
each newline separates two pieces. -/
def splitNl : List Char → List (List Char)
  | [] => [[]]
  | c :: rest =>
    if c = '\n' then [] :: splitNl rest
    else
      match splitNl rest with
      | [] => [[c]]
      | l :: ls => (c :: l) :: ls

/-- Python `s.startswith(p)` on char lists. -/
def startswith (p l : List Char) : Bool := List.isPrefixOf p l

/-- Python `s.endswith(p)` on char lists. -/
def endswith (p l : List Char) : Bool := List.isSuffixOf p l

/-- Token kinds of `tokenize`'s `token_specification` (the `SKIP` rule
produces no token). -/
inductive TokKind where
  | KEYWORD
  | NUMBER
  | ID
  | OP
  | SEMI
deriving DecidableEq

/-- One step per match of the scanning loop of `tokenize` (app.py
lines 35-41).  Python `re.finditer` over the alternation
`int|\d+|[a-zA-Z_][a-zA-Z0-9_]*|[+\-*/=]|;|[ \t\n]+` takes, at each
position, the first alternative that matches there, greedily; a
character matched by no alternative is skipped silently, as is the
whitespace `SKIP` rule (neither emits a token, both just advance).
The fuel argument starts at the length of the list and never runs out,
since every step consumes at least one character. -/
def scanB : Nat → List Char → List (TokKind × String)
  | 0, _ => []
  | _ + 1, [] => []
  | n + 1, c :: rest =>
    if startswith "int".data (c :: rest) then
      (TokKind.KEYWORD, "int") :: scanB n ((c :: rest).drop 3)
    else if isDigitC c then
      (TokKind.NUMBER, String.mk (c :: rest.takeWhile isDigitC)) ::
        scanB n (rest.dropWhile isDigitC)
    else if isIdStart c then
      (TokKind.ID, String.mk (c :: rest.takeWhile isIdCont)) ::
        scanB n (rest.dropWhile isIdCont)
    else if isOpC c then
      (TokKind.OP, String.mk [c]) :: scanB n rest
    else if c = ';' then
      (TokKind.SEMI, String.mk [c]) :: scanB n rest
    else
      scanB n rest

/-- The token stream of `tokenize`. -/
def scan (cs : List Char) : List (TokKind × String) := scanB cs.length cs

/-- `symbol_table[value] = 'int'` for a fresh identifier (app.py
line 40-41): first occurrence wins, insertion order preserved. -/
def insertSym (tbl : List (String × String)) (v : String) : List (String × String) :=
  if (tbl.map Prod.fst).contains v then tbl else tbl ++ [(v, "int")]

/-- Build the symbol table from the token stream: every `ID` token is
offered to the table in scan order. -/
def symbolsOf (toks : List (TokKind × String)) : List (String × String) :=
  toks.foldl (fun tbl t => if t.fst = TokKind.ID then insertSym tbl t.snd else tbl) []

/-- app.py `tokenize` (lines 22-43): token list plus symbol table. -/
def tokenize (code : String) : List (TokKind × String) × List (String × String) :=
  (scan code.data, symbolsOf (scan code.data))

/-- Per-line verdict of `syntax_analysis` (app.py lines 52-58). -/
def syntaxLine (line : List Char) : String :=
  if startswith "int".data line && endswith ";".data line then "Valid Declaration"
  else if line.contains '=' && endswith ";".data line then "Valid Assignment"
  else "Syntax Error"

/-- app.py `syntax_analysis` (lines 48-59): strip the source, split on
newlines, strip each line and classify it. -/
def syntax_analysis (code : String) : List (String × String) :=
  (splitNl (pyStrip code.data)).map
    (fun l => (String.mk (pyStrip l), syntaxLine (pyStrip l)))

/-- Python `str.split()` with no argument: split on whitespace runs,
discarding empty pieces.  Fuel starts at the length of the list. -/
def pySplitWsB : Nat → List Char → List (List Char)
  | 0, _ => []
  | _ + 1, [] => []
  | n + 1, c :: rest =>
    if isPyWs c then pySplitWsB n rest
    else
      (c :: rest.takeWhile (fun x => ! isPyWs x)) ::
        pySplitWsB n (rest.dropWhile (fun x => ! isPyWs x))

/-- Python `str.split()` with no argument. -/
def pySplitWs (l : List Char) : List (List Char) := pySplitWsB l.length l

/-- Python `re.findall(r'[a-zA-Z_][a-zA-Z0-9_]*', s)`: every maximal
identifier-shaped run, left to right. -/
def findIdsB : Nat → List Char → List (List Char)
  | 0, _ => []
  | _ + 1, [] => []
  | n + 1, c :: rest =>
    if isIdStart c then
      (c :: rest.takeWhile isIdCont) :: findIdsB n (rest.dropWhile isIdCont)
    else findIdsB n rest

/-- Python `re.findall(r'[a-zA-Z_][a-zA-Z0-9_]*', s)`. -/
def findIds (l : List Char) : List (List Char) := findIdsB l.length l

/-- The loop body of `semantic_analysis` (app.py lines 69-85), one
line at a time, threading the `declared` set and the `errors` list.
`none` models the Python `IndexError` raised by `line.split()[1]` when
a line starting with `int` has no second whitespace-separated word. -/
def semLines : List (List Char) → List String → List String → Option (List String)
  | [], _, errors => some errors
  | l :: rest, declared, errors =>
    let line := pyStrip l
    if startswith "int".data line then
      match pySplitWs line with
      | _ :: w :: _ =>
        let var := String.mk (w.filter (fun c => c != ';'))
        if declared.contains var then
          semLines rest declared
            (errors ++ ["Semantic Error: Multiple declaration of '" ++ var ++ "'"])
        else
          semLines rest (var :: declared) errors
      | _ => none
    else if line.contains '=' then
      let lhs := String.mk (pyStrip (line.takeWhile (fun c => c != '=')))
      let rhs := (pyStrip ((line.dropWhile (fun c => c != '=')).drop 1)).filter
        (fun c => c != ';')
      let e1 := if declared.contains lhs then errors
                else errors ++ ["Semantic Error: Undeclared variable '" ++ lhs ++ "'"]
      let e2 := e1 ++ (findIds rhs).filterMap (fun t =>
        if declared.contains (String.mk t) then none
        else some ("Semantic Error: Undeclared variable '" ++ String.mk t ++ "'"))
      semLines rest declared e2
    else semLines rest declared errors

/-- app.py `semantic_analysis` (lines 64-86).  `none` models an
uncaught `IndexError` (the function raising instead of returning). -/
def semantic_analysis (code : String) : Option (List String) :=
  semLines (splitNl (pyStrip code.data)) [] []

/-- Flattened token strings of the parser: `re.findall` on app.py
line 93 over the alternation keyword `int`, identifier, number, one of
the operator characters `=` `+` `*` `/` `-`, or `;`.  Same
first-alternative-wins scan as `scanB`, with the identifier
alternative before the number alternative. -/
def flattenB : Nat → List Char → List String
  | 0, _ => []
  | _ + 1, [] => []
  | n + 1, c :: rest =>
    if startswith "int".data (c :: rest) then
      "int" :: flattenB n ((c :: rest).drop 3)
    else if isIdStart c then
      String.mk (c :: rest.takeWhile isIdCont) :: flattenB n (rest.dropWhile isIdCont)
    else if isDigitC c then
      String.mk (c :: rest.takeWhile isDigitC) :: flattenB n (rest.dropWhile isDigitC)
    else if isOpC c then
      String.mk [c] :: flattenB n rest
    else if c = ';' then
      String.mk [c] :: flattenB n rest
    else
      flattenB n rest

/-- The parser's token list `tokens_list`. -/
def flatten (cs : List Char) : List String := flattenB cs.length cs

/-- app.py `Node`: a name and an ordered list of children (all
children added in the parser are already nodes or are wrapped as leaf
nodes with no children). -/
inductive Node where
  | mk (name : String) (children : List Node)

/-- Failure of the parser. `syntaxError` is the `SyntaxError` raised
by `match` with its expected/found pair; `indexError` is the Python
`IndexError` from reading `tokens_list[index]` out of range (either a
raw read of the current token, or `match` formatting its error message
at end of input). -/
inductive PErr where
  | syntaxError (expected found : String)
  | indexError
deriving DecidableEq

/-- app.py `match` (lines 96-102), with the global `index` made
explicit: consume the current token if it equals `expected`.  When
`index` is out of range the `else` branch's f-string reads
`tokens_list[index]` and raises `IndexError` before any `SyntaxError`
is built. -/
def pmatch (tl : List String) (i : Nat) (expected : String) : Except PErr Node × Nat :=
  if h : i < tl.length then
    if tl[i] = expected then (Except.ok (Node.mk expected []), i + 1)
    else (Except.error (PErr.syntaxError expected tl[i]), i)
  else (Except.error PErr.indexError, i)

/-- app.py `parse_declaration` (lines 114-121): `int`, then whatever
token is current (inserted as a leaf with no class check), then `;`. -/
def parse_declaration (tl : List String) (i : Nat) : Except PErr Node × Nat :=
  match pmatch tl i "int" with
  | (Except.error e, j) => (Except.error e, j)
  | (Except.ok m, i1) =>
    match tl[i1]? with
    | none => (Except.error PErr.indexError, i1)
    | some v =>
      match pmatch tl (i1 + 1) ";" with
      | (Except.error e, j) => (Except.error e, j)
      | (Except.ok s, i2) =>
        (Except.ok (Node.mk "Declaration" [m, Node.mk v [], s]), i2)

/-- app.py `parse_assignment` (lines 123-136): current token as LHS
leaf (no class check), `=`, current token as first term leaf (no class
check), an optional `+ Term`, then `;`. -/
def parse_assignment (tl : List String) (i : Nat) : Except PErr Node × Nat :=
  match tl[i]? with
  | none => (Except.error PErr.indexError, i)
  | some lhs =>
    match pmatch tl (i + 1) "=" with
    | (Except.error e, j) => (Except.error e, j)
    | (Except.ok eqn, i1) =>
      match tl[i1]? with
      | none => (Except.error PErr.indexError, i1)
      | some r1 =>
        if tl[i1 + 1]? = some "+" then
          match pmatch tl (i1 + 1) "+" with
          | (Except.error e, j) => (Except.error e, j)
          | (Except.ok pl, i2) =>
            match tl[i2]? with
            | none => (Except.error PErr.indexError, i2)
            | some r2 =>
              match pmatch tl (i2 + 1) ";" with
              | (Except.error e, j) => (Except.error e, j)
              | (Except.ok s, i3) =>
                (Except.ok (Node.mk "Assignment"
                  [Node.mk lhs [], eqn, Node.mk r1 [], pl, Node.mk r2 [], s]), i3)
        else
          match pmatch tl (i1 + 1) ";" with
          | (Except.error e, j) => (Except.error e, j)
          | (Except.ok s, i2) =>
            (Except.ok (Node.mk "Assignment"
              [Node.mk lhs [], eqn, Node.mk r1 [], s]), i2)

/-- app.py `parse_program` (lines 104-112): while the cursor is in
range, parse a declaration if the current token is `int`, else an
assignment, appending each statement node to the program's children.
Every successful statement advances the cursor by at least three, so a
fuel of `tl.length + 1` iterations is never exhausted. -/
def parse_program_loopB (tl : List String) :
    Nat → Nat → List Node → Except PErr (List Node) × Nat
  | 0, i, acc => (Except.ok acc, i)
  | n + 1, i, acc =>
    if h : i < tl.length then
      if tl[i] = "int" then
        match parse_declaration tl i with
        | (Except.ok node, j) => parse_program_loopB tl n j (acc ++ [node])
        | (Except.error e, j) => (Except.error e, j)
      else
        match parse_assignment tl i with
        | (Except.ok node, j) => parse_program_loopB tl n j (acc ++ [node])
        | (Except.error e, j) => (Except.error e, j)
    else (Except.ok acc, i)

/-- The module-level globals `tokens_list` and `index` used by the
recursive-descent parser (app.py lines 92-94). -/
structure GlobalState where
  tokens_list : List String
  index : Nat

/-- app.py `build_parse_tree` (lines 91-138) with the global state
made explicit: the first two statements overwrite both globals from
the input (`tokens_list = re.findall(...)`, `index = 0`), so the
incoming state is never read; the outgoing state is the flattened
token list together with the cursor position reached. -/
def build_parse_tree_st (code : String) (_g : GlobalState) :
    Except PErr Node × GlobalState :=
  match parse_program_loopB (flatten code.data) (flatten code.data).length.succ 0 [] with
  | (Except.ok ch, i) => (Except.ok (Node.mk "Program" ch), ⟨flatten code.data, i⟩)
  | (Except.error e, i) => (Except.error e, ⟨flatten code.data, i⟩)

/-- app.py `build_parse_tree` as called by the UI: the returned tree
(or the exception), starting from the module's state. -/
def build_parse_tree (code : String) : Except PErr Node :=
  (build_parse_tree_st code ⟨[], 0⟩).fst

/-- The grammar checker's per-line rule as the specification words it:
ValidDeclaration if the line starts with `int` and ends with `;`, else
ValidAssignment if it contains `=` and ends with `;`, else
SyntaxError, in that fixed priority. -/
def classifySpec (line : List Char) : String :=
  if startswith "int".data line && endswith ";".data line then "Valid Declaration"
  else if line.contains '=' && endswith ";".data line then "Valid Assignment"
  else "Syntax Error"

/-- The lexer never emits an identifier token whose lexeme is `int`:
the keyword alternative is tried first at every scan position, so a
position whose next three characters are `i` `n` `t` always produces
the keyword token, and an identifier token produced at any other
position cannot have exactly the lexeme `int`. -/
theorem scanB_ne_id_int (n : Nat) : ∀ cs : List Char, (TokKind.ID, "int") ∉ scanB n cs := by
  induction n with
  | zero => intro cs; simp [scanB]
  | succ n ih =>
    intro cs
    match cs with
    | [] => simp [scanB]
    | c :: rest =>
      simp only [scanB]
      split_ifs with h1 h2 h3 h4 h5
      · simp only [List.mem_cons]
        rintro (h | h)
        · exact absurd (congrArg Prod.fst h) (by simp)
        · exact ih _ h
      · simp only [List.mem_cons]
        rintro (h | h)
        · exact absurd (congrArg Prod.fst h) (by simp)
        · exact ih _ h
      · simp only [List.mem_cons]
        rintro (h | h)
        · have hs : ("int" : String).data = c :: rest.takeWhile isIdCont :=
            congrArg (fun s => String.data s.snd) h
          have hc : 'i' = c ∧ ['n', 't'] = rest.takeWhile isIdCont := by
            simpa using hs
          have hpfx : rest.takeWhile isIdCont <+: rest := List.takeWhile_prefix isIdCont
          rw [← hc.2] at hpfx
          obtain ⟨t, ht⟩ := hpfx
          apply h1
          rw [← hc.1, ← ht]
          simp [startswith, List.isPrefixOf]
        · exact ih _ h
      · simp only [List.mem_cons]
        rintro (h | h)
        · exact absurd (congrArg Prod.fst h) (by simp)
        · exact ih _ h
      · simp only [List.mem_cons]
        rintro (h | h)
        · exact absurd (congrArg Prod.fst h) (by simp)
        · exact ih _ h
      · exact ih _

/-- C1: on the input "int a;\nint a;\na = b;\n" (three physical
lines), the semantic checker returns normally with exactly two errors,
the duplicate declaration of a followed by the undeclared variable b,
in that order and no others. -/
theorem c1_semantic_two_errors :
    semantic_analysis "int a;\nint a;\na = b;\n" =
      some ["Semantic Error: Multiple declaration of 'a'",
            "Semantic Error: Undeclared variable 'b'"] := rfl

/-- C2: parsing "int a;\na = 5;\n" yields a Program root with exactly
two children in source order, a Declaration node with children `int`,
`a`, `;` and an Assignment node with children `a`, `=`, `5`, `;`, with
no additive `+ Term` part. -/
theorem c2_parse_tree :
    build_parse_tree "int a;\na = 5;\n" =
      Except.ok (Node.mk "Program"
        [Node.mk "Declaration" [Node.mk "int" [], Node.mk "a" [], Node.mk ";" []],
         Node.mk "Assignment"
           [Node.mk "a" [], Node.mk "=" [], Node.mk "5" [], Node.mk ";" []]]) := rfl

/-- C3: the grammar checker classifies each trimmed line by the fixed
priority written in the specification (declaration, else assignment,
else syntax error), and on "int a;\na = 5;\nb\n" it returns exactly
the three verdicts Valid Declaration, Valid Assignment, Syntax Error
in source order. -/
theorem c3_line_verdicts :
    (∀ line : List Char, syntaxLine line = classifySpec line) ∧
    syntax_analysis "int a;\na = 5;\nb\n" =
      [("int a;", "Valid Declaration"), ("a = 5;", "Valid Assignment"),
       ("b", "Syntax Error")] :=
  ⟨fun _ => rfl, rfl⟩

theorem c3_line_verdicts_witness :
    syntaxLine "x = 1;".data = classifySpec "x = 1;".data :=
  c3_line_verdicts.1 "x = 1;".data

/-- C4: parsing "a = ;" does not fail with a structured expected/found
error naming an identifier-or-number: the parser inserts the current
token `;` as the Term leaf without checking its class, and the
subsequent `match(';')` at end of input raises IndexError while
reading `tokens_list[index]` for its error message. -/
theorem c4_parse_semicolon_term_index_error :
    build_parse_tree "a = ;" = Except.error PErr.indexError := rfl

/-- C5: the semantic checker does not run to completion on every
input: a line consisting of the bare keyword (`int` or `int;`) makes
`line.split()[1]` raise IndexError (modelled as `none`), while on the
same inputs the grammar checker and the lexer do return complete
results. -/
theorem c5_semantic_crash_on_bare_int :
    semantic_analysis "int" = none ∧
    semantic_analysis "int;" = none ∧
    syntax_analysis "int" = [("int", "Syntax Error")] ∧
    (tokenize "int").fst = [(TokKind.KEYWORD, "int")] :=
  ⟨rfl, rfl, rfl, rfl⟩

/-- C6 counterexample: `integer` does not lex as a single Identifier
token; it lexes as the keyword `int` followed by the residual
identifier `eger`, because the keyword alternative is tried before the
identifier alternative at each position (first match wins, not
longest). -/
theorem c6_counterexample :
    (tokenize "integer").fst = [(TokKind.KEYWORD, "int"), (TokKind.ID, "eger")] ∧
    (tokenize "integer").fst ≠ [(TokKind.ID, "integer")] :=
  ⟨rfl, by decide⟩

/-- C6 amended: at each scan position the lexer selects the first rule
in the fixed priority order whose pattern matches there (keyword
before identifier), so the keyword `int` never lexes as an identifier
token, but an identifier whose spelling merely begins with `int`, such
as `integer`, lexes as the keyword `int` followed by a residual
identifier, not as a single Identifier token. -/
theorem c6_amended :
    (∀ code : String, (TokKind.ID, "int") ∉ (tokenize code).fst) ∧
    (tokenize "int").fst = [(TokKind.KEYWORD, "int")] ∧
    (tokenize "integer").fst = [(TokKind.KEYWORD, "int"), (TokKind.ID, "eger")] :=
  ⟨fun _ => scanB_ne_id_int _ _, rfl, rfl⟩

theorem c6_amended_witness :
    (TokKind.ID, "int") ∉ (tokenize "int x;").fst :=
  c6_amended.1 "int x;"

/-- C7: a character matched by no lexical rule is dropped silently
instead of raising a hard error: on "@" the lexer returns the empty
token stream, and on "a @ b" it returns the tokens and symbol table of
"a b" with the `@` gone without signal. -/
theorem c7_silent_drop :
    tokenize "@" = ([], []) ∧
    tokenize "a @ b" = ([(TokKind.ID, "a"), (TokKind.ID, "b")],
                        [("a", "int"), ("b", "int")]) :=
  ⟨rfl, rfl⟩

/-- C8 counterexample: on empty input the grammar checker does not
return an empty verdict list (splitting the empty source on newlines
yields one empty line, which is classified). -/
theorem c8_counterexample :
    syntax_analysis "" ≠ ([] : List (String × String)) := by decide

/-- C8 amended: on empty input the lexer returns an empty token list
and an empty symbol table, the semantic checker returns an empty error
list, and the parser returns a Program node with zero children; the
grammar checker, however, returns exactly one verdict, classifying the
single empty line as Syntax Error. -/
theorem c8_amended :
    tokenize "" = ([], []) ∧
    semantic_analysis "" = some [] ∧
    build_parse_tree "" = Except.ok (Node.mk "Program" []) ∧
    syntax_analysis "" = [("", "Syntax Error")] :=
  ⟨rfl, rfl, rfl, rfl⟩

/-- C9: each analysis is a deterministic function of the input string
alone.  The lexer, grammar checker and semantic checker are pure; the
parser overwrites both of its globals (`tokens_list`, `index`) on
entry, so its result does not depend on the incoming global state, and
a second invocation on the state left by the first returns the
identical output. -/
theorem c9_stateless (code : String) (g : GlobalState) :
    tokenize code = tokenize code ∧
    syntax_analysis code = syntax_analysis code ∧
    semantic_analysis code = semantic_analysis code ∧
    (build_parse_tree_st code g).fst = build_parse_tree code ∧
    (build_parse_tree_st code ((build_parse_tree_st code g).snd)).fst =
      (build_parse_tree_st code g).fst :=
  ⟨rfl, rfl, rfl, rfl, rfl⟩

theorem c9_stateless_witness :
    (build_parse_tree_st "int a;" ⟨["x", ";"], 7⟩).fst = build_parse_tree "int a;" :=
  (c9_stateless "int a;" ⟨["x", ";"], 7⟩).2.2.2.1

/-- C10: the parser inserts whatever token is current at Identifier
and Term positions as a leaf without checking its class: "int ; ;" and
"a = = ;" are outside the grammar, yet both parse to complete trees
(with `;` as the declared name and `=` as the assigned term). -/
theorem c10_no_term_validation :
    build_parse_tree "int ; ;" =
      Except.ok (Node.mk "Program"
        [Node.mk "Declaration" [Node.mk "int" [], Node.mk ";" [], Node.mk ";" []]]) ∧
    build_parse_tree "a = = ;" =
      Except.ok (Node.mk "Program"
        [Node.mk "Assignment"
          [Node.mk "a" [], Node.mk "=" [], Node.mk "=" [], Node.mk ";" []]]) :=
  ⟨rfl, rfl⟩

end MiniCompiler
